import Mathlib

/-!
Shallow embedding of the flask_blog publishing pipeline: the HTML sanitizer
(src/app/utils.py), the post service (src/app/services/post_service.py), the
category service (src/app/services/category_service.py) and the dashboard
category-deletion route (src/app/routes/dashboard.py), together with theorems
settling the specification claims about them.
-/

namespace FlaskBlog

/-- Tags allowed by the sanitizer — `ALLOWED_HTML_TAGS` in src/app/utils.py line 4. -/
def ALLOWED_HTML_TAGS : List String :=
  ["p", "strong", "h1", "h2", "h3", "ul", "ol", "li", "a", "code", "pre",
   "span", "img", "details", "summary"]

/-- Trusted prefixes for an image src — `trusted_patterns` in src/app/utils.py lines 34-38. -/
def trusted_patterns : List String :=
  ["/static/images/", "https://jake.tw", "data:image/"]

/-- Embeds `custom_attribute_filter` (src/app/utils.py lines 15-52): decides whether
attribute `name` with value `value` is kept on tag `tag`.  The Python `isinstance`
guards are vacuous here since `value` is always a string. -/
def custom_attribute_filter (tag attrName value : String) : Bool :=
  if attrName = "class" ∨ attrName = "id" ∨ attrName = "alt" then true
  else if tag = "img" ∧ attrName = "src" then
    trusted_patterns.any (fun p => p.isPrefixOf value)
  else if tag = "a" ∧ attrName = "href" then
    ("http://".isPrefixOf value ∨ "https://".isPrefixOf value : Bool)
  else if tag = "details" ∧ attrName = "open" then true
  else false

/-- A node of a parsed HTML token stream: text, an opening tag carrying its
attributes, or a closing tag.  Modelled from the spec: the HTML parsing done
inside `bleach.clean` (a third-party library, not in src/) is abstracted to a
token stream. -/
inductive HtmlTok where
  | text (s : String)
  | openTag (tag : String) (attrs : List (String × String))
  | closeTag (tag : String)
deriving Repr, DecidableEq

/-- Cleaning of one token: text is kept; a tag in the allow-list is kept with
its attributes filtered through `custom_attribute_filter`; a disallowed tag is
stripped (dropped, its inner text being preserved since text tokens are kept).
Modelled from the spec: the behaviour of `bleach.clean` with `strip=True` as
configured in src/app/utils.py lines 55-61. -/
def cleanTok : HtmlTok → List HtmlTok
  | .text s => [.text s]
  | .openTag t attrs =>
      if t ∈ ALLOWED_HTML_TAGS then
        [.openTag t (attrs.filter (fun a => custom_attribute_filter t a.1 a.2))]
      else []
  | .closeTag t => if t ∈ ALLOWED_HTML_TAGS then [.closeTag t] else []

/-- Modelled from the spec: `bleach.clean` over a token stream — every token is
cleaned by `cleanTok`. -/
def bleach_clean (toks : List HtmlTok) : List HtmlTok :=
  toks.flatMap cleanTok

lemma filter_attr_idem (t : String) (attrs : List (String × String)) :
    (attrs.filter (fun a => custom_attribute_filter t a.1 a.2)).filter
      (fun a => custom_attribute_filter t a.1 a.2)
      = attrs.filter (fun a => custom_attribute_filter t a.1 a.2) := by
  rw [List.filter_filter]
  simp [Bool.and_self]

lemma cleanTok_idem (tok : HtmlTok) : (cleanTok tok).flatMap cleanTok = cleanTok tok := by
  cases tok with
  | text s => simp [cleanTok]
  | openTag t attrs =>
      by_cases h : t ∈ ALLOWED_HTML_TAGS
      · simp [cleanTok, h, filter_attr_idem]
      · simp [cleanTok, h]
  | closeTag t =>
      by_cases h : t ∈ ALLOWED_HTML_TAGS
      · simp [cleanTok, h]
      · simp [cleanTok, h]

lemma bleach_clean_idem (toks : List HtmlTok) :
    bleach_clean (bleach_clean toks) = bleach_clean toks := by
  unfold bleach_clean
  induction toks with
  | nil => simp
  | cons hd tl ih =>
      simp only [List.flatMap_cons, List.flatMap_append, ih, cleanTok_idem hd]

/-- The error message logged by the except-branch of `clean_html_content`
(src/app/utils.py lines 65-67).  The Python source interpolates the exception
text, an input snippet and, when `context` is truthy (non-None and non-empty),
the string " Context: " followed by the label. -/
def sanitizeErrorLog (e : String) (context : Option String) : String :=
  "Error cleaning HTML content: " ++ e ++ ". Input snippet: ..." ++
    (match context with
     | some c => if c = "" then "" else " Context: " ++ c
     | none => "")

/-- What `clean_html_content` produces: the sanitized output and, when the
except-branch ran, the logged error line. -/
structure SanitizeResult where
  output : List HtmlTok
  log : Option String
deriving Repr, DecidableEq

/-- Embeds `clean_html_content` (src/app/utils.py lines 9-68).  The body calls
`bleach.clean`; `failure` abstracts whether that internal step raises (and with
which exception text): `none` means the cleaning ran to completion, `some e`
means an exception `e` was raised inside the try-block, in which case the
except-branch logs the error and returns the empty output. -/
def clean_html_content (html_content : List HtmlTok) (context : Option String)
    (failure : Option String) : SanitizeResult :=
  match failure with
  | none => { output := bleach_clean html_content, log := none }
  | some e => { output := [], log := some (sanitizeErrorLog e context) }

/-- C1: The HTML sanitizer is idempotent: for every input `s`, cleaning the
clean output again returns it unchanged (both calls running without an internal
failure). -/
theorem clean_html_content_idempotent (s : List HtmlTok) (context : Option String) :
    (clean_html_content (clean_html_content s context none).output context none).output
      = (clean_html_content s context none).output := by
  simp only [clean_html_content]
  exact bleach_clean_idem s

/-- C9: On any internal failure of `clean_html_content`, the function returns
the empty output and logs the failure with the given context label; in every
case the output is either the sanitized input or empty — never the unsanitized
input passed through. -/
theorem clean_html_content_fails_closed (s : List HtmlTok) (c e : String)
    (hc : c ≠ "") :
    (clean_html_content s (some c) (some e)).output = []
  ∧ (clean_html_content s (some c) (some e)).log
      = some ("Error cleaning HTML content: " ++ e ++ ". Input snippet: ..." ++
              (" Context: " ++ c))
  ∧ (∀ input ctx f, (clean_html_content input ctx f).output = bleach_clean input
      ∨ (clean_html_content input ctx f).output = []) := by
  refine ⟨rfl, ?_, ?_⟩
  · simp [clean_html_content, sanitizeErrorLog, hc]
  · intro input ctx f
    cases f with
    | none => exact Or.inl rfl
    | some e2 => exact Or.inr rfl

/-- Witness for C9 at concrete inputs. -/
theorem clean_html_content_fails_closed_witness :
    ("post_content" ≠ "")
  ∧ (clean_html_content [HtmlTok.text "hi"] (some "post_content") (some "boom")).output = [] := by
  have h : ("post_content" : String) ≠ "" := by decide
  exact ⟨h, (clean_html_content_fails_closed [HtmlTok.text "hi"] "post_content" "boom" h).1⟩

/-- The attribute policy exactly as claim C7 words it: only the global
attributes class and id; anchor href only for http:// or https://; img src only
for a trusted prefix; the boolean open attribute on details; everything else
dropped. -/
def claimed_attribute_policy (tag attrName value : String) : Bool :=
  if attrName = "class" ∨ attrName = "id" then true
  else if tag = "a" ∧ attrName = "href" then
    ("http://".isPrefixOf value ∨ "https://".isPrefixOf value : Bool)
  else if tag = "img" ∧ attrName = "src" then
    trusted_patterns.any (fun p => p.isPrefixOf value)
  else if tag = "details" ∧ attrName = "open" then true
  else false

/-- C7 counterexample: the filter in the source also keeps `alt` — on every
tag, not only on img — which the claim's enumeration does not allow. -/
theorem attribute_filter_keeps_alt :
    custom_attribute_filter "span" "alt" "x" = true
  ∧ claimed_attribute_policy "span" "alt" "x" = false := by
  constructor <;> rfl

/-- C7 amended: the filter keeps, on every tag, exactly the global attributes
class, id and alt; anchor href only when it starts with http:// or https://;
img src only when it starts with a trusted prefix; the boolean open attribute
on details; and drops every other attribute. -/
def amended_attribute_policy (tag attrName value : String) : Bool :=
  if attrName = "class" ∨ attrName = "id" ∨ attrName = "alt" then true
  else if tag = "a" ∧ attrName = "href" then
    ("http://".isPrefixOf value ∨ "https://".isPrefixOf value : Bool)
  else if tag = "img" ∧ attrName = "src" then
    trusted_patterns.any (fun p => p.isPrefixOf value)
  else if tag = "details" ∧ attrName = "open" then true
  else false

/-- C7 (amended): the source's attribute filter agrees everywhere with the
policy amended to also keep the global `alt` attribute. -/
theorem attribute_filter_eq_amended_policy (tag attrName value : String) :
    custom_attribute_filter tag attrName value
      = amended_attribute_policy tag attrName value := by
  unfold custom_attribute_filter amended_attribute_policy
  by_cases hg : attrName = "class" ∨ attrName = "id" ∨ attrName = "alt"
  · simp [hg]
  · by_cases himg : tag = "img" ∧ attrName = "src"
    · have ha : ¬(tag = "a" ∧ attrName = "href") := by
        rintro ⟨h, _⟩
        rw [h] at himg
        exact absurd himg.1 (by decide)
      simp [hg, himg, ha]
    · by_cases haa : tag = "a" ∧ attrName = "href"
      · simp [hg, himg, haa]
      · simp [hg, himg, haa]

/-- A row of the categories table (src/app/models.py, class Category). -/
structure Category where
  id : Nat
  name : String
  slug : String
  description : String
deriving Repr, DecidableEq

/-- A row of the posts table (src/app/models.py, class Post).  Fields the
claims never touch (timestamps) are omitted. -/
structure Post where
  id : Nat
  title : String
  slug : String
  thumbnail : Option String
  description : Option String
  content : String
  category_id : Nat
  status : String
  author_id : Nat
deriving Repr, DecidableEq

/-- The persistent store: the committed posts and categories plus the
autoincrement counters. -/
structure DB where
  posts : List Post
  categories : List Category
  nextPostId : Nat
  nextCategoryId : Nat
deriving Repr, DecidableEq

/-- The form data dictionary consumed by `create_post`/`update_post`
(src/app/services/post_service.py): `form_data.get(key)` returning Python None
is `none`; a missing `category_id` and an explicit None both map to `none`. -/
structure FormData where
  title : String
  slug : String
  thumbnail : Option String
  description : Option String
  content : String
  category_id : Option Nat
deriving Repr, DecidableEq

/-- The reserved slug of the default category
(src/app/services/category_service.py line 81). -/
def default_slug : String := "uncategorized"

/-- Embeds `Category.is_default_category` (src/app/models.py lines 155-158):
true iff the slug is the reserved value. -/
def is_default_category (c : Category) : Bool :=
  c.slug == default_slug

/-- Embeds `CategoryService.get_or_create_default_category`
(src/app/services/category_service.py lines 75-96): fetch the category with
the reserved slug; when absent, add one with the fixed name and description to
the session (flushed so it has an id; the caller's commit or rollback decides
its fate). -/
def get_or_create_default_category (db : DB) : Category × DB :=
  match db.categories.find? (fun c => c.slug == default_slug) with
  | some c => (c, db)
  | none =>
      let c : Category :=
        { id := db.nextCategoryId
          name := "Uncategorized"
          slug := default_slug
          description := "Default category for posts without a specific category." }
      (c, { db with
              categories := db.categories ++ [c]
              nextCategoryId := db.nextCategoryId + 1 })

/-- Embeds the category-resolution snippet shared by `create_post` (lines
33-36) and `update_post` (lines 118-121) of src/app/services/post_service.py:
Python `if not category_id or category_id == 0` is true exactly for a missing
key, None and 0, in which case the default category's id is used; any other id
is used as-is. -/
def resolve_category_id (db : DB) (category_id : Option Nat) : Nat × DB :=
  match category_id with
  | none =>
      let r := get_or_create_default_category db
      (r.1.id, r.2)
  | some n =>
      if n = 0 then
        let r := get_or_create_default_category db
        (r.1.id, r.2)
      else (n, db)

/-- Models Python's `str.lower()` (ASCII lowering of each character), stated
over the character list so that proofs can evaluate it on literals. -/
def pyLower (s : String) : String := ⟨s.data.map Char.toLower⟩

/-- Whether inserting a post with this slug violates the uniqueness constraint
on posts.slug (src/app/models.py line 187, `unique=True`). -/
def slugConflict (posts : List Post) (slug : String) : Bool :=
  posts.any (fun p => p.slug == slug)

/-- Whether `needle` occurs inside `hay` — models Python's `in` on strings. -/
def containsSubstr (hay needle : String) : Bool :=
  decide (needle.data <:+: hay.data)

/-- The text of the IntegrityError raised when the uniqueness constraint on
posts.slug is violated (SQLite wording, as seen by the except-branches of
src/app/services/post_service.py). -/
def integrity_msg : String := "UNIQUE constraint failed: posts.slug"

/-- The dictionary returned by `create_post` and `update_post`
(src/app/services/post_service.py): success flag, the keys present on success
and the error_type present on failure. -/
structure PostResult where
  success : Bool
  post_id : Option Nat
  post_slug : Option String
  status : Option String
  error_type : Option String
deriving Repr, DecidableEq

/-- Embeds `PostService.create_post` (src/app/services/post_service.py lines
20-94).  `cacheRaises` abstracts whether the cache invalidation after the
commit raises.  A duplicate slug makes the commit raise IntegrityError: the
session is rolled back (undoing the new row and any flushed default category)
and error_type is computed from the exception text as in line 83.  When the
commit succeeds but cache invalidation raises, the generic except-branch (lines
86-94) reports failure; its rollback opens on an already-committed transaction,
so the committed row stays. -/
def create_post (db : DB) (form_data : FormData) (action : String)
    (author_id : Nat) (cacheRaises : Bool) : PostResult × DB :=
  let r := resolve_category_id db form_data.category_id
  let category_id := r.1
  let db1 := r.2
  let status := if action = "publish" then "published" else "draft"
  let post : Post :=
    { id := db1.nextPostId
      title := form_data.title
      slug := pyLower form_data.slug
      thumbnail := form_data.thumbnail
      description := form_data.description
      content := form_data.content
      category_id := category_id
      status := status
      author_id := author_id }
  let db2 := { db1 with posts := db1.posts ++ [post], nextPostId := db1.nextPostId + 1 }
  if slugConflict db1.posts post.slug then
    ({ success := false, post_id := none, post_slug := none, status := none
       error_type := some (if containsSubstr (pyLower integrity_msg) "slug"
                           then "integrity" else "database") }, db)
  else if cacheRaises then
    ({ success := false, post_id := none, post_slug := none, status := none
       error_type := some "unexpected" }, db2)
  else
    ({ success := true, post_id := some post.id, post_slug := some post.slug
       status := some status, error_type := none }, db2)

/-- Embeds `PostService.update_post` (src/app/services/post_service.py lines
96-166).  The status is set from the action (lines 108-115: publish →
published, save → draft, anything else leaves it untouched), the content
fields are overwritten, and the commit either succeeds, raises IntegrityError
on a slug collision with a different post (error_type is the literal
"integrity", line 155), or — when only the cache invalidation after the commit
raises — reports failure while the committed update stays. -/
def update_post (db : DB) (post : Post) (form_data : FormData) (action : String)
    (cacheRaises : Bool) : PostResult × DB :=
  let status1 :=
    if action = "publish" then "published"
    else if action = "save" then "draft"
    else post.status
  let r := resolve_category_id db form_data.category_id
  let category_id := r.1
  let db1 := r.2
  let updated : Post :=
    { post with
        title := form_data.title
        slug := pyLower form_data.slug
        thumbnail := form_data.thumbnail
        description := form_data.description
        content := form_data.content
        category_id := category_id
        status := status1 }
  let db2 := { db1 with
                 posts := db1.posts.map (fun q => if q.id == post.id then updated else q) }
  if slugConflict (db1.posts.filter (fun q => q.id != post.id)) updated.slug then
    ({ success := false, post_id := none, post_slug := none, status := none
       error_type := some "integrity" }, db)
  else if cacheRaises then
    ({ success := false, post_id := none, post_slug := none, status := none
       error_type := some "unexpected" }, db2)
  else
    ({ success := true, post_id := some post.id, post_slug := some updated.slug
       status := some updated.status, error_type := none }, db2)

/-- The dictionary returned by `PostService.delete_post`. -/
structure DeleteResult where
  success : Bool
deriving Repr, DecidableEq

/-- Embeds `PostService.delete_post` (src/app/services/post_service.py lines
168-201): the row is deleted and committed; when the cache invalidation after
the commit raises, the except-branch reports failure while the committed
deletion stays. -/
def delete_post (db : DB) (post : Post) (cacheRaises : Bool) : DeleteResult × DB :=
  let db2 := { db with posts := db.posts.filter (fun q => q.id != post.id) }
  if cacheRaises then ({ success := false }, db2)
  else ({ success := true }, db2)

/-- Embeds `Category.total_post_count` (src/app/models.py lines 150-153): the
number of posts, drafts included, attached to the category. -/
def total_post_count (db : DB) (c : Category) : Nat :=
  (db.posts.filter (fun p => p.category_id == c.id)).length

/-- Outcome of the dashboard category-deletion route: whether the success
flash was emitted and whether the caches were invalidated. -/
structure CategoryDeleteResult where
  success : Bool
  cacheCleared : Bool
deriving Repr, DecidableEq

/-- Embeds the `delete_category` route (src/app/routes/dashboard.py lines
310-370): the default category is never deleted; a non-default category with
attached posts requires the category with the reserved slug to exist already —
it is fetched, never created — else the route flashes an error and returns
with nothing changed; otherwise all attached posts are reassigned to it and
the category row is deleted in the same commit, after which caches are
invalidated. -/
def delete_category (db : DB) (category : Category) : CategoryDeleteResult × DB :=
  if is_default_category category then
    ({ success := false, cacheCleared := false }, db)
  else if total_post_count db category > 0 then
    match db.categories.find? (fun c => c.slug == default_slug) with
    | none => ({ success := false, cacheCleared := false }, db)
    | some uncategorized =>
        let db2 := { db with
          posts := db.posts.map (fun p =>
            if p.category_id == category.id then { p with category_id := uncategorized.id } else p)
          categories := db.categories.filter (fun c => c.id != category.id) }
        ({ success := true, cacheCleared := true }, db2)
  else
    let db2 := { db with categories := db.categories.filter (fun c => c.id != category.id) }
    ({ success := true, cacheCleared := true }, db2)

lemma resolve_posts_eq (db : DB) (cid : Option Nat) :
    (resolve_category_id db cid).2.posts = db.posts := by
  cases cid with
  | none =>
      cases h : db.categories.find? (fun c => c.slug == default_slug) with
      | none => simp [resolve_category_id, get_or_create_default_category, h]
      | some c => simp [resolve_category_id, get_or_create_default_category, h]
  | some n =>
      by_cases hn : n = 0
      · cases h : db.categories.find? (fun c => c.slug == default_slug) with
        | none => simp [resolve_category_id, get_or_create_default_category, hn, h]
        | some c => simp [resolve_category_id, get_or_create_default_category, hn, h]
      · simp [resolve_category_id, hn]

/-- A sample non-default category. -/
def techCategory : Category :=
  { id := 1, name := "Tech", slug := "tech", description := "tech posts" }

/-- A sample default category, as `get_or_create_default_category` creates it. -/
def uncategorizedCategory : Category :=
  { id := 2, name := "Uncategorized", slug := "uncategorized"
    description := "Default category for posts without a specific category." }

/-- A sample published post attached to `techCategory`. -/
def publishedPost : Post :=
  { id := 1, title := "Hello", slug := "hello-world", thumbnail := none
    description := none, content := "body", category_id := 1
    status := "published", author_id := 1 }

/-- A sample store holding the published post and both categories. -/
def sampleDB : DB :=
  { posts := [publishedPost], categories := [techCategory, uncategorizedCategory]
    nextPostId := 2, nextCategoryId := 3 }

/-- A sample form submission editing `publishedPost` in place (same slug). -/
def editForm : FormData :=
  { title := "Hello v2", slug := "hello-world", thumbnail := none
    description := none, content := "body v2", category_id := some 1 }

/-- A sample form submission with a fresh slug. -/
def freshForm : FormData :=
  { title := "Second", slug := "second-post", thumbnail := none
    description := none, content := "body", category_id := some 1 }

/-- C2: the status written by the pipeline is determined by the action: create
or update with action publish yields published; create or update with action
save yields draft; update with action update leaves the stored status unchanged
while the content fields (e.g. the title) are overwritten. -/
theorem status_determined_by_action (db : DB) (fd : FormData) (author : Nat)
    (post : Post)
    (hc : slugConflict db.posts (pyLower fd.slug) = false)
    (hu : slugConflict (db.posts.filter (fun q => q.id != post.id)) (pyLower fd.slug) = false) :
    (create_post db fd "publish" author false).1.status = some "published"
  ∧ (create_post db fd "save" author false).1.status = some "draft"
  ∧ (update_post db post fd "publish" false).1.status = some "published"
  ∧ (update_post db post fd "save" false).1.status = some "draft"
  ∧ (update_post db post fd "update" false).1.status = some post.status
  ∧ (∀ q ∈ (update_post db post fd "update" false).2.posts,
        q.id = post.id → q.status = post.status ∧ q.title = fd.title) := by
  have hp := resolve_posts_eq db fd.category_id
  refine ⟨?_, ?_, ?_, ?_, ?_, ?_⟩
  · simp [create_post, hp, hc]
  · simp [create_post, hp, hc]
  · simp [update_post, hp, hu]
  · simp [update_post, hp, hu]
  · simp [update_post, hp, hu]
  · intro q hq hid
    simp only [update_post, hp, hu] at hq
    simp only [if_neg, Bool.false_eq_true, not_false_iff] at hq
    rw [if_neg (by simp [hu]), if_neg (by simp)] at hq
    simp only [List.mem_map] at hq
    obtain ⟨q0, hq0, rfl⟩ := hq
    by_cases h0 : q0.id == post.id
    · simp [h0]
    · rw [if_neg h0] at hid ⊢
      exact absurd (beq_iff_eq.2 hid) h0

/-- Witness for C2 at concrete inputs. -/
theorem status_determined_by_action_witness :
    slugConflict sampleDB.posts (pyLower freshForm.slug) = false
  ∧ (create_post sampleDB freshForm "publish" 1 false).1.status = some "published" := by
  have hc : slugConflict sampleDB.posts (pyLower freshForm.slug) = false := by decide
  have hu : slugConflict (sampleDB.posts.filter (fun q => q.id != publishedPost.id))
      (pyLower freshForm.slug) = false := by decide
  exact ⟨hc, (status_determined_by_action sampleDB freshForm 1 publishedPost hc hu).1⟩

/-- C4: a creation whose slug collides with an existing post fails with the
field-level error_type integrity, and the session rollback leaves the store —
in particular the first post carrying that slug — exactly as it was. -/
theorem duplicate_slug_rolls_back (db : DB) (fd : FormData) (action : String)
    (author : Nat) (cacheRaises : Bool)
    (hdup : slugConflict db.posts (pyLower fd.slug) = true) :
    (create_post db fd action author cacheRaises).1.success = false
  ∧ (create_post db fd action author cacheRaises).1.error_type = some "integrity"
  ∧ (create_post db fd action author cacheRaises).2 = db := by
  have hp := resolve_posts_eq db fd.category_id
  have hmsg : containsSubstr (pyLower integrity_msg) "slug" = true := by decide
  refine ⟨?_, ?_, ?_⟩ <;> simp [create_post, hp, hdup, hmsg]

/-- Witness for C4 at concrete inputs: re-creating the already-used slug
`hello-world`. -/
theorem duplicate_slug_rolls_back_witness :
    slugConflict sampleDB.posts (pyLower editForm.slug) = true
  ∧ (create_post sampleDB editForm "publish" 1 false).2 = sampleDB := by
  have hdup : slugConflict sampleDB.posts (pyLower editForm.slug) = true := by decide
  exact ⟨hdup, (duplicate_slug_rolls_back sampleDB editForm "publish" 1 false hdup).2.2⟩

lemma resolve_nextPostId_eq (db : DB) (cid : Option Nat) :
    (resolve_category_id db cid).2.nextPostId = db.nextPostId := by
  cases cid with
  | none =>
      cases h : db.categories.find? (fun c => c.slug == default_slug) with
      | none => simp [resolve_category_id, get_or_create_default_category, h]
      | some c => simp [resolve_category_id, get_or_create_default_category, h]
  | some n =>
      by_cases hn : n = 0
      · cases h : db.categories.find? (fun c => c.slug == default_slug) with
        | none => simp [resolve_category_id, get_or_create_default_category, hn, h]
        | some c => simp [resolve_category_id, get_or_create_default_category, hn, h]
      · simp [resolve_category_id, hn]

/-- A sample form submission with a fresh slug and no category supplied. -/
def noCategoryForm : FormData :=
  { title := "Third", slug := "third-post", thumbnail := none
    description := none, content := "body", category_id := none }

/-- C5: a supplied category_id of 0, None or missing resolves to the id of the
category with slug uncategorized — fetched when present, created with its fixed
name and description when absent — while any other id is used as-is; a post
created with no category is stored with the default category's id. -/
theorem default_category_fallback (db : DB) (fd : FormData) (author : Nat)
    (n : Nat) (hn : n ≠ 0)
    (hc : slugConflict db.posts (pyLower fd.slug) = false)
    (hcat : fd.category_id = none ∨ fd.category_id = some 0) :
    (resolve_category_id db none).1 = (get_or_create_default_category db).1.id
  ∧ (resolve_category_id db (some 0)).1 = (get_or_create_default_category db).1.id
  ∧ (resolve_category_id db (some n)) = (n, db)
  ∧ (get_or_create_default_category db).1.slug = "uncategorized"
  ∧ (db.categories.find? (fun c => c.slug == default_slug) = none →
       (get_or_create_default_category db).1.name = "Uncategorized"
     ∧ (get_or_create_default_category db).1.description
         = "Default category for posts without a specific category."
     ∧ (get_or_create_default_category db).1 ∈ (get_or_create_default_category db).2.categories)
  ∧ (∀ cd, db.categories.find? (fun c => c.slug == default_slug) = some cd →
       get_or_create_default_category db = (cd, db))
  ∧ (create_post db fd "save" author false).2.posts.getLast?
      = some { id := db.nextPostId, title := fd.title, slug := pyLower fd.slug
               thumbnail := fd.thumbnail, description := fd.description
               content := fd.content
               category_id := (get_or_create_default_category db).1.id
               status := "draft", author_id := author } := by
  refine ⟨rfl, rfl, by simp [resolve_category_id, hn], ?_, ?_, ?_, ?_⟩
  · unfold get_or_create_default_category
    cases h : db.categories.find? (fun c => c.slug == default_slug) with
    | none => rfl
    | some c =>
        have := List.find?_some h
        simpa [default_slug] using (beq_iff_eq.1 this)
  · intro h
    simp [get_or_create_default_category, h]
  · intro cd h
    simp [get_or_create_default_category, h]
  · have hrid : (resolve_category_id db fd.category_id).1
        = (get_or_create_default_category db).1.id := by
      rcases hcat with h | h <;> rw [h] <;> rfl
    have hp := resolve_posts_eq db fd.category_id
    have hnp := resolve_nextPostId_eq db fd.category_id
    simp only [create_post, hp, hc, Bool.false_eq_true, if_false, if_neg, hrid, hnp]
    exact List.getLast?_concat _

/-- Witness for C5 at concrete inputs: creating a post with no category in a
store that already holds the default category. -/
theorem default_category_fallback_witness :
    slugConflict sampleDB.posts (pyLower noCategoryForm.slug) = false
  ∧ (create_post sampleDB noCategoryForm "save" 1 false).2.posts.getLast?
      = some { id := sampleDB.nextPostId, title := noCategoryForm.title
               slug := pyLower noCategoryForm.slug
               thumbnail := noCategoryForm.thumbnail
               description := noCategoryForm.description
               content := noCategoryForm.content
               category_id := (get_or_create_default_category sampleDB).1.id
               status := "draft", author_id := 1 } := by
  have hc : slugConflict sampleDB.posts (pyLower noCategoryForm.slug) = false := by decide
  exact ⟨hc, (default_category_fallback sampleDB noCategoryForm 1 1 (by decide) hc
    (Or.inl rfl)).2.2.2.2.2.2⟩

/-- C3 counterexample: the pipeline does expose a published-to-draft
transition — updating the stored published post with action save succeeds and
leaves it with status draft. -/
theorem unpublish_via_save_counterexample :
    publishedPost.status = "published"
  ∧ publishedPost ∈ sampleDB.posts
  ∧ (update_post sampleDB publishedPost editForm "save" false).1.success = true
  ∧ (update_post sampleDB publishedPost editForm "save" false).1.status = some "draft"
  ∧ (update_post sampleDB publishedPost editForm "save" false).2.posts.map Post.status
      = ["draft"] := by
  refine ⟨rfl, by decide, ?_, ?_, ?_⟩ <;> decide

/-- C3 amended: update_post with action save is the one published-to-draft
transition: it sets a published post's status to draft.  For the actions
publish and update no published post becomes draft, create_post keeps every
existing row unchanged, and delete_post only removes rows. -/
theorem no_unpublish_except_save_action (db : DB) (post : Post) (fd : FormData)
    (author : Nat) (action : String) (cr : Bool)
    (hpub : post.status = "published")
    (hact : action = "publish" ∨ action = "update")
    (hu : slugConflict (db.posts.filter (fun q => q.id != post.id)) (pyLower fd.slug) = false) :
    (∀ q ∈ (update_post db post fd action cr).2.posts,
        q.id = post.id → q.status = "published")
  ∧ (∀ q ∈ db.posts, q ∈ (create_post db fd action author cr).2.posts)
  ∧ (∀ q ∈ (delete_post db post cr).2.posts, q ∈ db.posts)
  ∧ (∀ q ∈ (update_post db post fd "save" cr).2.posts,
        q.id = post.id → q.status = "draft") := by
  have hp := resolve_posts_eq db fd.category_id
  have hstat : (if action = "publish" then "published"
                else if action = "save" then "draft" else post.status) = "published" := by
    rcases hact with h | h <;> rw [h] <;> simp [hpub]
  refine ⟨?_, ?_, ?_, ?_⟩
  · intro q hq hid
    simp only [update_post, hp, hu, Bool.false_eq_true, if_false] at hq
    by_cases hcr : cr
    · rw [if_pos hcr] at hq
      simp only [List.mem_map] at hq
      obtain ⟨q0, _, rfl⟩ := hq
      by_cases h0 : q0.id == post.id
      · simp [h0, hstat]
      · rw [if_neg h0] at hid ⊢
        exact absurd (beq_iff_eq.2 hid) h0
    · rw [if_neg hcr] at hq
      simp only [List.mem_map] at hq
      obtain ⟨q0, _, rfl⟩ := hq
      by_cases h0 : q0.id == post.id
      · simp [h0, hstat]
      · rw [if_neg h0] at hid ⊢
        exact absurd (beq_iff_eq.2 hid) h0
  · intro q hq
    simp only [create_post, hp]
    split
    · exact hq
    · split
      · exact List.mem_append_left _ hq
      · exact List.mem_append_left _ hq
  · intro q hq
    unfold delete_post at hq
    split at hq <;> simpa using (List.mem_filter.1 hq).1
  · intro q hq hid
    simp only [update_post, hp, hu, Bool.false_eq_true, if_false] at hq
    by_cases hcr : cr
    · rw [if_pos hcr] at hq
      simp only [List.mem_map] at hq
      obtain ⟨q0, _, rfl⟩ := hq
      by_cases h0 : q0.id == post.id
      · simp [h0]
      · rw [if_neg h0] at hid ⊢
        exact absurd (beq_iff_eq.2 hid) h0
    · rw [if_neg hcr] at hq
      simp only [List.mem_map] at hq
      obtain ⟨q0, _, rfl⟩ := hq
      by_cases h0 : q0.id == post.id
      · simp [h0]
      · rw [if_neg h0] at hid ⊢
        exact absurd (beq_iff_eq.2 hid) h0

/-- Witness for the amended C3 at concrete inputs. -/
theorem no_unpublish_except_save_action_witness :
    publishedPost.status = "published"
  ∧ (∀ q ∈ (update_post sampleDB publishedPost editForm "publish" false).2.posts,
        q.id = publishedPost.id → q.status = "published") := by
  have hpub : publishedPost.status = "published" := rfl
  have hu : slugConflict (sampleDB.posts.filter (fun q => q.id != publishedPost.id))
      (pyLower editForm.slug) = false := by decide
  exact ⟨hpub, (no_unpublish_except_save_action sampleDB publishedPost editForm 1
    "publish" false hpub (Or.inl rfl) hu).1⟩

/-- C6 counterexample: when the cache invalidation after a successful commit
raises, create_post reports failure (success false, error_type unexpected) even
though the new row was committed and persists. -/
theorem cache_failure_reported_counterexample :
    (create_post sampleDB freshForm "publish" 1 true).1.success = false
  ∧ (create_post sampleDB freshForm "publish" 1 true).1.error_type = some "unexpected"
  ∧ (create_post sampleDB freshForm "publish" 1 true).2.posts.length
      = sampleDB.posts.length + 1 := by
  refine ⟨?_, ?_, ?_⟩ <;> decide

/-- C6 amended: a cache-invalidation failure after a committed post write never
undoes the persisted state — the store ends up exactly as on the success path —
but the operation reports failure (success false, error_type unexpected for the
post service) instead of success. -/
theorem cache_failure_keeps_commit (db : DB) (fd : FormData) (author : Nat)
    (post : Post) (action : String)
    (hc : slugConflict db.posts (pyLower fd.slug) = false)
    (hu : slugConflict (db.posts.filter (fun q => q.id != post.id)) (pyLower fd.slug) = false) :
    (create_post db fd action author true).2 = (create_post db fd action author false).2
  ∧ (create_post db fd action author true).1.success = false
  ∧ (create_post db fd action author true).1.error_type = some "unexpected"
  ∧ (update_post db post fd action true).2 = (update_post db post fd action false).2
  ∧ (update_post db post fd action true).1.success = false
  ∧ (update_post db post fd action true).1.error_type = some "unexpected"
  ∧ (delete_post db post true).2 = (delete_post db post false).2
  ∧ (delete_post db post true).1.success = false := by
  have hp := resolve_posts_eq db fd.category_id
  refine ⟨?_, ?_, ?_, ?_, ?_, ?_, ?_, ?_⟩ <;>
    simp [create_post, update_post, delete_post, hp, hc, hu]

/-- Witness for the amended C6 at concrete inputs. -/
theorem cache_failure_keeps_commit_witness :
    slugConflict sampleDB.posts (pyLower freshForm.slug) = false
  ∧ (create_post sampleDB freshForm "publish" 1 true).2
      = (create_post sampleDB freshForm "publish" 1 false).2 := by
  have hc : slugConflict sampleDB.posts (pyLower freshForm.slug) = false := by decide
  have hu : slugConflict (sampleDB.posts.filter (fun q => q.id != publishedPost.id))
      (pyLower freshForm.slug) = false := by decide
  exact ⟨hc, (cache_failure_keeps_commit sampleDB freshForm 1 publishedPost
    "publish" hc hu).1⟩

/-- C8: deleting a non-default category with attached posts (the default
category being present) succeeds: every attached post is reassigned to the
default category's id, untouched posts stay, the category row is gone, and the
caches are invalidated; the default category itself is never deleted and the
attempt reports failure. -/
theorem delete_category_reassigns (db : DB) (cat dflt : Category)
    (hnd : is_default_category cat = false)
    (hdflt : db.categories.find? (fun c => c.slug == default_slug) = some dflt)
    (hN : total_post_count db cat > 0) :
    (delete_category db cat).1.success = true
  ∧ (delete_category db cat).1.cacheCleared = true
  ∧ (∀ c ∈ (delete_category db cat).2.categories, c.id ≠ cat.id)
  ∧ (∀ p ∈ db.posts, p.category_id = cat.id →
        { p with category_id := dflt.id } ∈ (delete_category db cat).2.posts)
  ∧ (∀ p ∈ db.posts, p.category_id ≠ cat.id → p ∈ (delete_category db cat).2.posts)
  ∧ (∀ db2 c2, is_default_category c2 = true →
        delete_category db2 c2 = ({ success := false, cacheCleared := false }, db2)) := by
  have hred : delete_category db cat
      = ({ success := true, cacheCleared := true },
         { db with
             posts := db.posts.map (fun p =>
               if p.category_id == cat.id then { p with category_id := dflt.id } else p)
             categories := db.categories.filter (fun c => c.id != cat.id) }) := by
    simp [delete_category, hnd, hN, hdflt]
  refine ⟨by rw [hred], by rw [hred], ?_, ?_, ?_, ?_⟩
  · intro c hc
    rw [hred] at hc
    have := (List.mem_filter.1 hc).2
    simpa using this
  · intro p hp hcid
    rw [hred]
    exact List.mem_map.2 ⟨p, hp, by simp [hcid]⟩
  · intro p hp hcid
    rw [hred]
    refine List.mem_map.2 ⟨p, hp, ?_⟩
    rw [if_neg (by simpa using hcid)]
  · intro db2 c2 h
    simp [delete_category, h]

/-- Witness for C8 at concrete inputs: deleting the tech category, whose one
post moves to the default category. -/
theorem delete_category_reassigns_witness :
    is_default_category techCategory = false
  ∧ { publishedPost with category_id := uncategorizedCategory.id }
      ∈ (delete_category sampleDB techCategory).2.posts := by
  have hnd : is_default_category techCategory = false := by decide
  have hdflt : sampleDB.categories.find? (fun c => c.slug == default_slug)
      = some uncategorizedCategory := by decide
  have hN : total_post_count sampleDB techCategory > 0 := by decide
  exact ⟨hnd, (delete_category_reassigns sampleDB techCategory uncategorizedCategory
    hnd hdflt hN).2.2.2.1 publishedPost (by decide) rfl⟩

/-- A sample store in which the default category does not exist. -/
def noDefaultDB : DB :=
  { posts := [publishedPost], categories := [techCategory]
    nextPostId := 2, nextCategoryId := 3 }

/-- C10: when no category carries the slug uncategorized, deleting a
non-default category with at least one attached post reports failure and the
store is untouched — the category stays, no post is reassigned, and unlike the
post-creation path the default category is not created. -/
theorem delete_category_missing_default (db : DB) (cat : Category)
    (hnd : is_default_category cat = false)
    (hmiss : db.categories.find? (fun c => c.slug == default_slug) = none)
    (hN : total_post_count db cat > 0) :
    (delete_category db cat).1.success = false
  ∧ (delete_category db cat).1.cacheCleared = false
  ∧ (delete_category db cat).2 = db := by
  refine ⟨?_, ?_, ?_⟩ <;> simp [delete_category, hnd, hN, hmiss]

/-- Witness for C10 at concrete inputs. -/
theorem delete_category_missing_default_witness :
    is_default_category techCategory = false
  ∧ (delete_category noDefaultDB techCategory).2 = noDefaultDB := by
  have hnd : is_default_category techCategory = false := by decide
  have hmiss : noDefaultDB.categories.find? (fun c => c.slug == default_slug) = none := by
    decide
  have hN : total_post_count noDefaultDB techCategory > 0 := by decide
  exact ⟨hnd, (delete_category_missing_default noDefaultDB techCategory hnd hmiss hN).2.2⟩

end FlaskBlog
